import Mathlib

/-!
Verification of the aureon-campaign-manager core calculation logic
(src/src/App.tsx, mirrored in src/unnamed/part_000).

The source is TypeScript; its `number` values are embedded as `ℚ` for the
finite fragment, and as `JSNum` (rationals extended with NaN and the two
infinities) where the behaviour on non-finite inputs is at stake.
JavaScript primitives are modelled explicitly:

  Math.round n        = ⌊n + 1/2⌋            (ties toward +infinity)
  (x).toFixed(2), +   = ⌊x * 100 + 1/2⌋/100  (same tie rule)
  Math.floor          = ⌊·⌋
  Math.max / Math.min = max / min (NaN-propagating on JSNum)
-/

/-- JavaScript Math.round over the finite numbers: round half toward +infinity. -/
def jsRound (q : ℚ) : ℚ := ⌊q + 1/2⌋

/-- JavaScript `+(x).toFixed(2)`: round to two decimal places, ties toward +infinity. -/
def jsToFixed2 (q : ℚ) : ℚ := (⌊q * 100 + 1/2⌋ : ℚ) / 100

/-- The four media channels of the allocation editor (`keys` in the source). -/
inductive Channel
  | OOH
  | TV
  | Digital
  | CTV
deriving DecidableEq

/-- The slider state `mediaAlloc`: one percentage per channel. -/
structure MediaAlloc where
  OOH : ℚ
  TV : ℚ
  Digital : ℚ
  CTV : ℚ
deriving DecidableEq

/-- Canonical key order `["OOH", "TV", "Digital", "CTV"]` from the source. -/
def keys : List Channel := [Channel.OOH, Channel.TV, Channel.Digital, Channel.CTV]

/-- Field access `alloc[k]`. -/
def MediaAlloc.get (a : MediaAlloc) : Channel → ℚ
  | Channel.OOH => a.OOH
  | Channel.TV => a.TV
  | Channel.Digital => a.Digital
  | Channel.CTV => a.CTV

/-- Field update `alloc[k] = v`. -/
def MediaAlloc.set (a : MediaAlloc) : Channel → ℚ → MediaAlloc
  | Channel.OOH, v => { a with OOH := v }
  | Channel.TV, v => { a with TV := v }
  | Channel.Digital, v => { a with Digital := v }
  | Channel.CTV, v => { a with CTV := v }

/-- Source `setAllocForChannel` (App.tsx lines 440-479), finite-input fragment.
`Number(n || 0)` is the identity on finite numbers (`0 || 0` is `0`), so the
total recomputation is a plain sum here. -/
def setAllocForChannel (alloc : MediaAlloc) (channel : Channel) (rawVal : ℚ) : MediaAlloc :=
  let val : ℚ := max 0 (min 100 (jsRound rawVal))
  let others : List Channel := keys.filter (fun k => k ≠ channel)
  let prevOthersSum : ℚ := others.foldl (fun s k => s + alloc.get k) 0
  let remaining : ℚ := max 0 (100 - val)
  let withSel : MediaAlloc := alloc.set channel val
  let redistributed : MediaAlloc :=
    if 0 < prevOthersSum then
      others.foldl (fun acc o => acc.set o (jsRound (alloc.get o / prevOthersSum * remaining))) withSel
    else
      let per : ℚ := ⌊remaining / (others.length : ℚ)⌋
      let equal : MediaAlloc := others.foldl (fun acc o => acc.set o per) withSel
      let sumNow : ℚ := others.foldl (fun s o => s + equal.get o) 0
      let rem : ℚ := remaining - sumNow
      if 0 < rem then
        match others.head? with
        | some o => equal.set o (equal.get o + rem)
        | none => equal
      else equal
  let total : ℚ := keys.foldl (fun s k => s + redistributed.get k) 0
  if total = 100 then redistributed
  else
    let delta : ℚ := 100 - total
    let firstAdjustKey : Channel := (keys.find? (fun k => k ≠ channel)).getD channel
    redistributed.set firstAdjustKey (max 0 (redistributed.get firstAdjustKey + delta))

/-- A CPA / Conversions pair as consumed by the forecast helper. -/
structure ForecastPair where
  CPA : ℚ
  Conversions : ℚ
deriving DecidableEq

/-- Source `computeForecast` (App.tsx lines 239-246). -/
def computeForecast (last : ForecastPair) (improvement : ℚ) : ForecastPair :=
  { CPA := jsToFixed2 (last.CPA * (1 - improvement / 100)),
    Conversions := jsRound (last.Conversions * (1 + improvement / 100)) }

/-- The fixed per-channel improvement-rate table `mediaInventorySubcategories`. -/
def mediaInventorySubcategories : List (String × ℚ) :=
  [("Out-of-Home (OOH)", 13.3), ("TV", 10.2), ("Digital", 3.9), ("Connected TV", 2.2)]

/-- Names of the `dataFeedSubcategories` entries (only the names are consulted
by `findParentPanel`). -/
def dataFeedSubcategoryNames : List String :=
  ["CDP Data (batch or real-time)", "Product Catalog Data",
   "Identity Data (personalization)", "Variant Scaling Data (colors, headlines, CTAs)"]

/-- Source `computeCompositeImprovement` (App.tsx lines 482-497): the mapping
object in channel-name order, its value sum, and the fold over the fixed
rate table with `mapping[s.name] ?? 0`. -/
def computeCompositeImprovement (alloc : MediaAlloc) : ℚ :=
  let mapping : List (String × ℚ) :=
    [("Out-of-Home (OOH)", alloc.OOH), ("TV", alloc.TV),
     ("Digital", alloc.Digital), ("Connected TV", alloc.CTV)]
  let total : ℚ := (mapping.map Prod.snd).foldl (· + ·) 0
  if total ≤ 0 then 0
  else
    let weighted : ℚ :=
      mediaInventorySubcategories.foldl
        (fun w s => w + ((mapping.lookup s.1).getD 0) / total * s.2) 0
    jsRound (weighted * 10) / 10

/-- Keys of `baseInsights` paired with each insight's `improvement` field
(App.tsx lines 202-234), in declaration order. -/
def baseInsightsImprovement : List (String × ℚ) :=
  [("Audience", 8), ("Landing Page", 10), ("Media Inventory", 6),
   ("Creative", 12), ("Data Feed Optimization", 7)]

/-- Source `findParentPanel` (App.tsx lines 499-508): a direct `baseInsights`
key maps to itself, a known subcategory name maps to its panel, anything
else to none. -/
def findParentPanel (label : String) : Option String :=
  if (baseInsightsImprovement.map Prod.fst).contains label then some label
  else if (mediaInventorySubcategories.map Prod.fst).contains label then some "Media Inventory"
  else if dataFeedSubcategoryNames.contains label then some "Data Feed Optimization"
  else none

/-- The improvement percentage `applyImprovement` uses:
`improvement ?? (panelKey ? baseInsights[panelKey]?.improvement || 0 : 0)`.
On this table `x || 0` agrees with `getD 0`. -/
def improvementFor (label : String) (improvement : Option ℚ) : ℚ :=
  improvement.getD
    (match findParentPanel label with
     | some pk => (baseInsightsImprovement.lookup pk).getD 0
     | none => 0)

/-- One row of the performance chart state (`PerformancePoint` in the source). -/
structure PerformancePoint where
  cycle : String
  actualCPA : ℚ
  actualConversions : ℚ
  forecastCPA : ℚ
  forecastConversions : ℚ
deriving DecidableEq

/-- The hard-coded `initialPerformanceData` rows (App.tsx lines 42-72). -/
def initialPerformanceData : List PerformancePoint :=
  [⟨"Cycle 1", 48, 150, 50, 125⟩,
   ⟨"Cycle 2", 43, 155, 45, 150⟩,
   ⟨"Cycle 3", 40, 175, 42, 165⟩,
   ⟨"Cycle 4", 38, 195, 40, 190⟩]

/-- Effect of source `applyImprovement` (App.tsx lines 519-542) on the
performance log: read the last row, chain the forecast from its forecast
fields, and append one row carrying the actuals forward. The source indexes
`performanceData[length - 1]` unguarded; an empty log (unreachable in the
app) is modelled as a no-op. The parallel activity-log append is separate
state and not needed by any claim about the performance log. -/
def applyImprovement (perf : List PerformancePoint) (label : String)
    (improvement : Option ℚ) : List PerformancePoint :=
  match perf.getLast? with
  | none => perf
  | some last =>
    let imp : ℚ := improvementFor label improvement
    let f : ForecastPair := computeForecast ⟨last.forecastCPA, last.forecastConversions⟩ imp
    perf ++ [{ cycle := "Forecast: " ++ label,
               actualCPA := last.actualCPA,
               actualConversions := last.actualConversions,
               forecastCPA := f.CPA,
               forecastConversions := f.Conversions }]

/-- A JavaScript double restricted to the values this code can produce:
NaN, the two infinities, or a finite (exact rational) value. Negative zero
is identified with zero, which is observationally equal for every operation
the source performs. -/
inductive JSNum
  | nan
  | inf
  | ninf
  | fin (q : ℚ)
deriving DecidableEq

/-- JavaScript addition on `JSNum`. -/
def JSNum.add : JSNum → JSNum → JSNum
  | nan, _ => nan
  | _, nan => nan
  | inf, ninf => nan
  | ninf, inf => nan
  | inf, _ => inf
  | _, inf => inf
  | ninf, _ => ninf
  | _, ninf => ninf
  | fin a, fin b => fin (a + b)

/-- JavaScript subtraction on `JSNum`. -/
def JSNum.sub : JSNum → JSNum → JSNum
  | nan, _ => nan
  | _, nan => nan
  | inf, inf => nan
  | ninf, ninf => nan
  | inf, _ => inf
  | _, inf => ninf
  | ninf, _ => ninf
  | _, ninf => inf
  | fin a, fin b => fin (a - b)

/-- JavaScript multiplication on `JSNum`. -/
def JSNum.mul : JSNum → JSNum → JSNum
  | nan, _ => nan
  | _, nan => nan
  | inf, inf => inf
  | inf, ninf => ninf
  | ninf, inf => ninf
  | ninf, ninf => inf
  | inf, fin b => if b = 0 then nan else if 0 < b then inf else ninf
  | fin a, inf => if a = 0 then nan else if 0 < a then inf else ninf
  | ninf, fin b => if b = 0 then nan else if 0 < b then ninf else inf
  | fin a, ninf => if a = 0 then nan else if 0 < a then ninf else inf
  | fin a, fin b => fin (a * b)

/-- JavaScript division on `JSNum` (zero denominators behave as +0). -/
def JSNum.div : JSNum → JSNum → JSNum
  | nan, _ => nan
  | _, nan => nan
  | inf, inf => nan
  | inf, ninf => nan
  | ninf, inf => nan
  | ninf, ninf => nan
  | inf, fin b => if 0 ≤ b then inf else ninf
  | ninf, fin b => if 0 ≤ b then ninf else inf
  | fin _, inf => fin 0
  | fin _, ninf => fin 0
  | fin a, fin b =>
    if b = 0 then (if a = 0 then nan else if 0 < a then inf else ninf)
    else fin (a / b)

/-- JavaScript `<` on `JSNum`: false whenever either side is NaN. -/
def JSNum.lt : JSNum → JSNum → Bool
  | nan, _ => false
  | _, nan => false
  | inf, _ => false
  | _, inf => true
  | ninf, ninf => false
  | ninf, _ => true
  | _, ninf => false
  | fin a, fin b => decide (a < b)

/-- JavaScript Math.max of two arguments: NaN-propagating. -/
def JSNum.max2 (a b : JSNum) : JSNum :=
  if a = nan ∨ b = nan then nan else if JSNum.lt a b then b else a

/-- JavaScript Math.min of two arguments: NaN-propagating. -/
def JSNum.min2 (a b : JSNum) : JSNum :=
  if a = nan ∨ b = nan then nan else if JSNum.lt a b then a else b

/-- JavaScript Math.round on `JSNum`. -/
def JSNum.round : JSNum → JSNum
  | nan => nan
  | inf => inf
  | ninf => ninf
  | fin q => fin (jsRound q)

/-- JavaScript Math.floor on `JSNum`. -/
def JSNum.floor : JSNum → JSNum
  | nan => nan
  | inf => inf
  | ninf => ninf
  | fin q => fin ⌊q⌋

/-- JavaScript `n || 0` followed by `Number(...)`: NaN and 0 are falsy and
become 0, every other numeric value passes through. -/
def JSNum.orZero (a : JSNum) : JSNum :=
  if a = nan ∨ a = fin 0 then fin 0 else a

/-- Source `clampPercent` (App.tsx lines 248-253) over `JSNum`:
`Number.isNaN`, the two comparisons (false on NaN), then Math.round. -/
def clampPercent (n : JSNum) : JSNum :=
  if n = JSNum.nan then JSNum.fin 0
  else if JSNum.lt n (JSNum.fin 0) then JSNum.fin 0
  else if JSNum.lt (JSNum.fin 100) n then JSNum.fin 100
  else JSNum.round n

/-- The slider state with JavaScript number semantics, for the behaviour of
`setAllocForChannel` on non-finite raw values. -/
structure MediaAllocJS where
  OOH : JSNum
  TV : JSNum
  Digital : JSNum
  CTV : JSNum
deriving DecidableEq

/-- Field access on the `JSNum`-valued state. -/
def MediaAllocJS.get (a : MediaAllocJS) : Channel → JSNum
  | Channel.OOH => a.OOH
  | Channel.TV => a.TV
  | Channel.Digital => a.Digital
  | Channel.CTV => a.CTV

/-- Field update on the `JSNum`-valued state. -/
def MediaAllocJS.set (a : MediaAllocJS) : Channel → JSNum → MediaAllocJS
  | Channel.OOH, v => { a with OOH := v }
  | Channel.TV, v => { a with TV := v }
  | Channel.Digital, v => { a with Digital := v }
  | Channel.CTV, v => { a with CTV := v }

/-- Source `setAllocForChannel` (App.tsx lines 440-479) with full JavaScript
number semantics: `Math.max(0, Math.min(100, Math.round(rawVal)))` inline,
`Number(n || 0)` in the total, and `(newAlloc[k] || 0)` in the fix-up. -/
def setAllocForChannelJS (alloc : MediaAllocJS) (channel : Channel) (rawVal : JSNum) : MediaAllocJS :=
  let val : JSNum := JSNum.max2 (JSNum.fin 0) (JSNum.min2 (JSNum.fin 100) (JSNum.round rawVal))
  let others : List Channel := keys.filter (fun k => k ≠ channel)
  let prevOthersSum : JSNum := others.foldl (fun s k => JSNum.add s (alloc.get k)) (JSNum.fin 0)
  let remaining : JSNum := JSNum.max2 (JSNum.fin 0) (JSNum.sub (JSNum.fin 100) val)
  let withSel : MediaAllocJS := alloc.set channel val
  let redistributed : MediaAllocJS :=
    if JSNum.lt (JSNum.fin 0) prevOthersSum then
      others.foldl
        (fun acc o => acc.set o (JSNum.round (JSNum.mul (JSNum.div (alloc.get o) prevOthersSum) remaining)))
        withSel
    else
      let per : JSNum := JSNum.floor (JSNum.div remaining (JSNum.fin (others.length : ℚ)))
      let equal : MediaAllocJS := others.foldl (fun acc o => acc.set o per) withSel
      let sumNow : JSNum := others.foldl (fun s o => JSNum.add s (equal.get o)) (JSNum.fin 0)
      let rem : JSNum := JSNum.sub remaining sumNow
      if JSNum.lt (JSNum.fin 0) rem then
        match others.head? with
        | some o => equal.set o (JSNum.add (equal.get o) rem)
        | none => equal
      else equal
  let total : JSNum := keys.foldl (fun s k => JSNum.add s (JSNum.orZero (redistributed.get k))) (JSNum.fin 0)
  if total = JSNum.fin 100 then redistributed
  else
    let delta : JSNum := JSNum.sub (JSNum.fin 100) total
    let firstAdjustKey : Channel := (keys.find? (fun k => k ≠ channel)).getD channel
    redistributed.set firstAdjustKey
      (JSNum.max2 (JSNum.fin 0) (JSNum.add (JSNum.orZero (redistributed.get firstAdjustKey)) delta))

/-- Equal split described by the specification for the `prevSum == 0` case of
the Allocation Redistributor: the selected channel gets the clamped value,
each other channel gets `floor(remaining / 3)`, and the leftover remainder is
added to the first other channel in canonical key order. -/
def equalSplitSpec (c : Channel) (rawVal : ℚ) : MediaAlloc :=
  let val : ℚ := max 0 (min 100 (jsRound rawVal))
  let r : ℚ := 100 - val
  let per : ℚ := ⌊r / 3⌋
  let others : List Channel := keys.filter (fun k => k ≠ c)
  let withPer : MediaAlloc :=
    others.foldl (fun acc o => acc.set o per) ((MediaAlloc.mk 0 0 0 0).set c val)
  match others.head? with
  | some o => withPer.set o (per + (r - 3 * per))
  | none => withPer

lemma applyImprovement_eq (perf : List PerformancePoint) (label : String)
    (improvement : Option ℚ) (h : perf ≠ []) :
    applyImprovement perf label improvement =
      perf ++ [{ cycle := "Forecast: " ++ label,
                 actualCPA := (perf.getLast h).actualCPA,
                 actualConversions := (perf.getLast h).actualConversions,
                 forecastCPA := (computeForecast ⟨(perf.getLast h).forecastCPA,
                   (perf.getLast h).forecastConversions⟩ (improvementFor label improvement)).CPA,
                 forecastConversions := (computeForecast ⟨(perf.getLast h).forecastCPA,
                   (perf.getLast h).forecastConversions⟩ (improvementFor label improvement)).Conversions }] := by
  unfold applyImprovement
  rw [List.getLast?_eq_getLast_of_ne_nil h]

/-- C2: computeForecast returns the CPA scaled by (1 - p/100) rounded to two
decimals and the Conversions scaled by (1 + p/100) rounded to the nearest
integer; p = 100 drives the CPA to 0, in particular on the pair (80, 50). -/
theorem computeForecast_formula_c2 :
    (∀ (last : ForecastPair) (p : ℚ),
      computeForecast last p =
        ⟨jsToFixed2 (last.CPA * (1 - p / 100)), jsRound (last.Conversions * (1 + p / 100))⟩) ∧
    (∀ last : ForecastPair, (computeForecast last 100).CPA = 0) ∧
    computeForecast ⟨80, 50⟩ 100 = ⟨0, 100⟩ := by
  refine ⟨fun last p => rfl, fun last => ?_, ?_⟩
  · simp [computeForecast, jsToFixed2]
    norm_num
  · simp [computeForecast, jsToFixed2, jsRound]
    norm_num

/-- C5 counterexample: an improvement of 0 is not the identity on every pair;
a CPA with more than two decimal places is altered by the rounding. -/
theorem computeForecast_zero_counterexample_c5 :
    computeForecast ⟨1234/1000, 200⟩ 0 ≠ ⟨1234/1000, 200⟩ := by
  simp [computeForecast, jsToFixed2, jsRound]
  norm_num

/-- C5 amended: an improvement of 0 is the identity exactly on the pairs that
the rounding fixes, that is when the CPA equals its own two-decimal rounding
and the Conversions equal their own nearest-integer rounding. -/
theorem computeForecast_zero_identity_c5 (x : ForecastPair)
    (h1 : jsToFixed2 x.CPA = x.CPA) (h2 : jsRound x.Conversions = x.Conversions) :
    computeForecast x 0 = x := by
  simp [computeForecast, h1, h2]

/-- Witness for the amended C5 at the pair (100, 200). -/
theorem computeForecast_zero_identity_c5_witness :
    computeForecast ⟨100, 200⟩ 0 = ⟨100, 200⟩ :=
  computeForecast_zero_identity_c5 ⟨100, 200⟩
    (by norm_num [jsToFixed2]) (by norm_num [jsRound])

/-- C3: the composite improvement is 0 when the allocation total is not
positive, otherwise the allocation-weighted mean of the four fixed rates
rounded to one decimal; on the equal allocation it equals the unweighted
average of the four rates rounded to one decimal. -/
theorem computeCompositeImprovement_formula_c3 :
    (∀ a : MediaAlloc,
      computeCompositeImprovement a =
        if a.OOH + a.TV + a.Digital + a.CTV ≤ 0 then 0
        else
          jsRound ((a.OOH / (a.OOH + a.TV + a.Digital + a.CTV) * 13.3 +
                    a.TV / (a.OOH + a.TV + a.Digital + a.CTV) * 10.2 +
                    a.Digital / (a.OOH + a.TV + a.Digital + a.CTV) * 3.9 +
                    a.CTV / (a.OOH + a.TV + a.Digital + a.CTV) * 2.2) * 10) / 10) ∧
    computeCompositeImprovement ⟨25, 25, 25, 25⟩ =
      jsRound ((13.3 + 10.2 + 3.9 + 2.2) / 4 * 10) / 10 ∧
    computeCompositeImprovement ⟨0, 0, 0, 0⟩ = 0 := by
  refine ⟨fun a => ?_, ?_, ?_⟩
  · simp +decide [computeCompositeImprovement, mediaInventorySubcategories, List.foldl,
      List.lookup]
  · simp [computeCompositeImprovement, mediaInventorySubcategories, List.foldl, List.lookup]
    norm_num [jsRound]
  · simp [computeCompositeImprovement, mediaInventorySubcategories, List.foldl, List.lookup]

/-- C7: setting any channel to 100 zeroes the three other channels, whatever
the prior allocation was. -/
theorem setAllocForChannel_hundred_c7 :
    ∀ (a : MediaAlloc) (c : Channel),
      setAllocForChannel a c 100 = (MediaAlloc.mk 0 0 0 0).set c 100 := by
  intro a c
  obtain ⟨w, x, y, z⟩ := a
  cases c <;>
    simp +decide [setAllocForChannel, keys, MediaAlloc.get, MediaAlloc.set, jsRound,
      List.filter, List.foldl, List.find?] <;>
    norm_num

set_option maxHeartbeats 1600000 in
/-- C8: when the three non-selected channels sum to 0, the redistribution is
the deterministic equal split: each other channel gets the integer third of
the remaining budget and the leftover goes to the first other channel in
canonical key order. -/
theorem setAllocForChannel_equal_split_c8 (a : MediaAlloc) (c : Channel) (rawVal : ℚ)
    (h : (keys.filter (fun k => k ≠ c)).foldl (fun s k => s + a.get k) 0 = 0) :
    setAllocForChannel a c rawVal = equalSplitSpec c rawVal := by
  have hV0 : (0:ℚ) ≤ max 0 (min 100 (jsRound rawVal)) := le_max_left _ _
  have hV100 : max 0 (min 100 (jsRound rawVal)) ≤ 100 :=
    max_le (by norm_num) (min_le_left _ _)
  have hrem : max 0 (100 - max 0 (min 100 (jsRound rawVal)))
      = 100 - max 0 (min 100 (jsRound rawVal)) := max_eq_right (by linarith)
  have hfl : 3 * ((⌊(100 - max 0 (min 100 (jsRound rawVal))) / 3⌋ : ℤ) : ℚ)
      ≤ 100 - max 0 (min 100 (jsRound rawVal)) := by
    have hx := Int.floor_le ((100 - max 0 (min 100 (jsRound rawVal))) / 3)
    linarith
  obtain ⟨w, x, y, z⟩ := a
  cases c <;>
    (simp +decide [setAllocForChannel, equalSplitSpec, keys, MediaAlloc.get, MediaAlloc.set,
       List.filter, List.foldl, List.find?] at h ⊢
     simp only [h, hrem]
     norm_num
     split_ifs with h1 h2 h3 <;>
       (try dsimp only at *) <;>
       first
         | (exfalso
            first
              | exact h2 (by linarith [hfl])
              | exact h3 (by linarith [hfl]))
         | (simp only [MediaAlloc.mk.injEq]
            refine ⟨?_, ?_, ?_, ?_⟩ <;>
              first
                | linarith [hfl]
                | ring))

/-- C1 failing input: from the valid allocation (0, 1, 1, 98), which sums to
100 with non-negative integer entries, setting CTV to 99 makes the rounding
drift negative while the first non-selected channel is already 0, so the
clamped fix-up cannot absorb it and the result (0, 1, 1, 99) sums to 101,
contradicting the invariant that the four values always sum to 100. -/
theorem setAllocForChannel_sum_violation_c1 :
    setAllocForChannel ⟨0, 1, 1, 98⟩ Channel.CTV 99 = ⟨0, 1, 1, 99⟩ ∧
    (setAllocForChannel ⟨0, 1, 1, 98⟩ Channel.CTV 99).OOH +
      (setAllocForChannel ⟨0, 1, 1, 98⟩ Channel.CTV 99).TV +
      (setAllocForChannel ⟨0, 1, 1, 98⟩ Channel.CTV 99).Digital +
      (setAllocForChannel ⟨0, 1, 1, 98⟩ Channel.CTV 99).CTV = 101 := by
  constructor <;>
    norm_num +decide [setAllocForChannel, keys, MediaAlloc.get, MediaAlloc.set, jsRound,
      List.filter, List.foldl, List.find?]

/-- C4 counterexample: setAllocForChannel does not clamp or zero a NaN raw
value; starting from the initial allocation (30, 30, 25, 15), a NaN raw value
for OOH leaves NaN in the OOH slot (and in two others), so the result is not
a valid allocation. -/
theorem setAllocForChannelJS_nan_counterexample_c4 :
    (setAllocForChannelJS ⟨JSNum.fin 30, JSNum.fin 30, JSNum.fin 25, JSNum.fin 15⟩
        Channel.OOH JSNum.nan).OOH = JSNum.nan ∧
    setAllocForChannelJS ⟨JSNum.fin 30, JSNum.fin 30, JSNum.fin 25, JSNum.fin 15⟩
        Channel.OOH JSNum.nan = ⟨JSNum.nan, JSNum.fin 100, JSNum.nan, JSNum.nan⟩ := by
  constructor <;>
    norm_num +decide [setAllocForChannelJS, keys, MediaAllocJS.get, MediaAllocJS.set, jsRound,
      List.filter, List.foldl, List.find?, JSNum.add, JSNum.sub, JSNum.mul, JSNum.div,
      JSNum.lt, JSNum.max2, JSNum.min2, JSNum.round, JSNum.floor, JSNum.orZero]

set_option maxHeartbeats 1600000 in
/-- C4 amended: computeForecast, setAllocForChannel and the composite scorer
are total functions of the embedding and signal no errors; for the selected
channel, setAllocForChannel clamps a raw value of +infinity to 100 and one of
-infinity to 0, but a NaN raw value is propagated, not treated as zero. -/
theorem setAllocForChannelJS_nonfinite_c4 :
    ∀ (a : MediaAllocJS) (c : Channel),
      (setAllocForChannelJS a c JSNum.inf).get c = JSNum.fin 100 ∧
      (setAllocForChannelJS a c JSNum.ninf).get c = JSNum.fin 0 ∧
      (setAllocForChannelJS a c JSNum.nan).get c = JSNum.nan := by
  intro a c
  obtain ⟨w, x, y, z⟩ := a
  refine ⟨?_, ?_, ?_⟩ <;>
    cases c <;>
      (dsimp only [setAllocForChannelJS, keys, MediaAllocJS.get, MediaAllocJS.set,
         List.filter, List.foldl, List.find?, List.head?, List.length, Option.getD]
       split_ifs <;> rfl)

/-- C6: every applyImprovement call on a non-empty performance log appends
exactly one point and leaves the existing points unchanged in order; the new
point carries the previous last point's actuals forward and its forecast
fields are computeForecast of the previous last point's forecast fields at
the chosen improvement. -/
theorem applyImprovement_append_c6 (perf : List PerformancePoint) (label : String)
    (improvement : Option ℚ) (h : perf ≠ []) :
    applyImprovement perf label improvement =
      perf ++ [{ cycle := "Forecast: " ++ label,
                 actualCPA := (perf.getLast h).actualCPA,
                 actualConversions := (perf.getLast h).actualConversions,
                 forecastCPA := (computeForecast ⟨(perf.getLast h).forecastCPA,
                   (perf.getLast h).forecastConversions⟩ (improvementFor label improvement)).CPA,
                 forecastConversions := (computeForecast ⟨(perf.getLast h).forecastCPA,
                   (perf.getLast h).forecastConversions⟩ (improvementFor label improvement)).Conversions }] :=
  applyImprovement_eq perf label improvement h

/-- Witness for C6 on the initial four-row log with the Audience panel:
one row is appended, actuals 38 and 195 are carried forward, and the
forecast chains from (40, 190) at 8 percent to (36.8, 205). -/
theorem applyImprovement_append_c6_witness :
    applyImprovement initialPerformanceData "Audience" none =
      initialPerformanceData ++ [⟨"Forecast: Audience", 38, 195, 36.8, 205⟩] := by
  refine (applyImprovement_append_c6 initialPerformanceData "Audience" none
    (by simp [initialPerformanceData])).trans ?_
  norm_num [initialPerformanceData, List.getLast, computeForecast, improvementFor,
    findParentPanel, baseInsightsImprovement, mediaInventorySubcategories, jsToFixed2, jsRound]
  rfl

/-- C9: a label that is neither a panel name nor a known subcategory name,
with no explicit improvement argument, yields improvement 0: the appended
point's forecast fields are computeForecast of the previous forecast fields
at 0. -/
theorem applyImprovement_unknown_label_c9 (perf : List PerformancePoint) (label : String)
    (h : perf ≠ []) (hu : findParentPanel label = none) :
    applyImprovement perf label none =
      perf ++ [{ cycle := "Forecast: " ++ label,
                 actualCPA := (perf.getLast h).actualCPA,
                 actualConversions := (perf.getLast h).actualConversions,
                 forecastCPA := (computeForecast ⟨(perf.getLast h).forecastCPA,
                   (perf.getLast h).forecastConversions⟩ 0).CPA,
                 forecastConversions := (computeForecast ⟨(perf.getLast h).forecastCPA,
                   (perf.getLast h).forecastConversions⟩ 0).Conversions }] := by
  have h0 : improvementFor label none = 0 := by simp [improvementFor, hu]
  rw [applyImprovement_eq perf label none h, h0]

/-- Witness for C9: the unrecognized label Mystery appends a point whose
forecast fields repeat the previous forecast (40, 190). -/
theorem applyImprovement_unknown_label_c9_witness :
    applyImprovement initialPerformanceData "Mystery" none =
      initialPerformanceData ++ [⟨"Forecast: Mystery", 38, 195, 40, 190⟩] := by
  refine (applyImprovement_unknown_label_c9 initialPerformanceData "Mystery"
    (by simp [initialPerformanceData])
    (by simp [findParentPanel, baseInsightsImprovement, mediaInventorySubcategories,
      dataFeedSubcategoryNames])).trans ?_
  norm_num [initialPerformanceData, List.getLast, computeForecast, jsToFixed2, jsRound]
  rfl

/-- C10: clampPercent sends NaN, -infinity and every negative input to 0,
+infinity and every input above 100 to 100, rounds in-range inputs to the
nearest integer, and always returns an integer in the range 0 to 100. -/
theorem clampPercent_range_c10 :
    clampPercent JSNum.nan = JSNum.fin 0 ∧
    clampPercent JSNum.inf = JSNum.fin 100 ∧
    clampPercent JSNum.ninf = JSNum.fin 0 ∧
    (∀ q : ℚ, q < 0 → clampPercent (JSNum.fin q) = JSNum.fin 0) ∧
    (∀ q : ℚ, 100 < q → clampPercent (JSNum.fin q) = JSNum.fin 100) ∧
    (∀ q : ℚ, 0 ≤ q → q ≤ 100 → clampPercent (JSNum.fin q) = JSNum.fin (jsRound q)) ∧
    (∀ n : JSNum, ∃ k : ℤ, clampPercent n = JSNum.fin (k : ℚ) ∧ 0 ≤ k ∧ k ≤ 100) := by
  have hnan : clampPercent JSNum.nan = JSNum.fin 0 := rfl
  have hinf : clampPercent JSNum.inf = JSNum.fin 100 := rfl
  have hninf : clampPercent JSNum.ninf = JSNum.fin 0 := rfl
  have hneg : ∀ q : ℚ, q < 0 → clampPercent (JSNum.fin q) = JSNum.fin 0 := by
    intro q hq
    simp [clampPercent, JSNum.lt, hq]
  have habove : ∀ q : ℚ, 100 < q → clampPercent (JSNum.fin q) = JSNum.fin 100 := by
    intro q hq
    have hq0 : ¬ q < 0 := by linarith
    simp [clampPercent, JSNum.lt, hq0, hq]
  have hin : ∀ q : ℚ, 0 ≤ q → q ≤ 100 → clampPercent (JSNum.fin q) = JSNum.fin (jsRound q) := by
    intro q h1 h2
    simp [clampPercent, JSNum.lt, JSNum.round, not_lt.mpr h1, not_lt.mpr h2]
  refine ⟨hnan, hinf, hninf, hneg, habove, hin, ?_⟩
  intro n
  match n with
  | JSNum.nan => exact ⟨0, hnan, by norm_num, by norm_num⟩
  | JSNum.inf => exact ⟨100, hinf, by norm_num, by norm_num⟩
  | JSNum.ninf => exact ⟨0, hninf, by norm_num, by norm_num⟩
  | JSNum.fin q =>
    rcases lt_or_ge q 0 with hq | hq0
    · exact ⟨0, hneg q hq, by norm_num, by norm_num⟩
    · rcases lt_or_ge 100 q with hq | hq100
      · exact ⟨100, habove q hq, by norm_num, by norm_num⟩
      · refine ⟨⌊q + 1/2⌋, ?_, ?_, ?_⟩
        · rw [hin q hq0 hq100]
          simp [jsRound]
        · exact Int.le_floor.mpr (by push_cast; linarith)
        · have h100 : (⌊(q + 1/2 : ℚ)⌋ : ℤ) ≤ ⌊(201/2 : ℚ)⌋ :=
            Int.floor_le_floor (by linarith)
          have : (⌊(201/2 : ℚ)⌋ : ℤ) = 100 := by norm_num
          omega

/-- Witness for C10 at the inputs -5, 105 and 49.6 from the dev tests. -/
theorem clampPercent_range_c10_witness :
    clampPercent (JSNum.fin (-5)) = JSNum.fin 0 ∧
    clampPercent (JSNum.fin 105) = JSNum.fin 100 ∧
    clampPercent (JSNum.fin (496/10)) = JSNum.fin 50 := by
  refine ⟨clampPercent_range_c10.2.2.2.1 (-5) (by norm_num),
          clampPercent_range_c10.2.2.2.2.1 105 (by norm_num), ?_⟩
  have h := clampPercent_range_c10.2.2.2.2.2.1 (496/10) (by norm_num) (by norm_num)
  rw [h]
  norm_num [jsRound]

/-- Witness for C8: from (7, 0, 0, 0), setting OOH to 45 leaves 55 to split,
18 to each other channel with the leftover 1 going to TV. -/
theorem setAllocForChannel_equal_split_c8_witness :
    setAllocForChannel ⟨7, 0, 0, 0⟩ Channel.OOH 45 = ⟨45, 19, 18, 18⟩ := by
  refine (setAllocForChannel_equal_split_c8 ⟨7, 0, 0, 0⟩ Channel.OOH 45
    (by norm_num +decide [keys, MediaAlloc.get, List.filter, List.foldl])).trans ?_
  norm_num +decide [equalSplitSpec, keys, MediaAlloc.set, MediaAlloc.get, jsRound,
    List.filter, List.foldl]
